import Mathlib

/-!
Shallow embedding of the vector-search service (Express + MongoDB Atlas +
OpenAI) and proofs about its routes.

Source files embedded here:
- src/functions/get-embeddings.js : getEmbedding
- src/routes/index.js             : createEmbedding, createSearchIndex, search
- src/unnamed/part_000            : reply (plus older variants of the above)

External services (the Mongo collection, the OpenAI embedding and chat
endpoints) are modelled as oracles passed in as function arguments; the
definitions below translate the JavaScript control flow over those oracles.
Numbers carried in JSON are modelled as Rat, machine floats never being
compared or computed with in the embedded code paths (only lengths and
equality of whole structures matter to the claims).
-/

namespace VectorSearch

/-! ## Data model -/

/-- A document of the recipes collection, as far as the embedded routes
inspect it: an identifier and an optional name field (none = the field is
absent, or holds a non-string value such as null; the routes only ever test
presence and compare against the empty string). -/
structure Doc where
  id : Nat
  name : Option String
  deriving Repr, DecidableEq

/-- A JSON value that an embedding-service response can place in
data[0].embedding: either an array of numbers or anything else
(the code tests Array.isArray before the length). -/
inductive EmbVal where
  | arr (v : List Rat)
  | nonArray
  deriving Repr, DecidableEq

/-- Outcome of one embedding-service call: the promise rejects (fail), or it
resolves and data[0].embedding is the given value. -/
inductive EmbResp where
  | fail
  | value (v : EmbVal)
  deriving Repr, DecidableEq

/-! ## EmbeddingClient: getEmbedding (src/functions/get-embeddings.js) -/

/-- getEmbedding from src/functions/get-embeddings.js lines 8-20. It builds
one request whose input is the given text, forwards it to the service, and
returns data[0].embedding unchanged; a rejected call is logged and rethrown.
The function performs no input validation and no shape check of the result.
The second component records the input texts of the upstream calls made. -/
def getEmbedding (svc : String → EmbResp) (text : String) : EmbResp × List String :=
  (svc text, [text])

/-! ## BackfillJob: createEmbedding (src/routes/index.js lines 40-146) -/

/-- Mutable state of the createEmbedding loop (lines 74-76): the accumulated
bulk-update entries (document id, embedding vector) and the two counters. -/
structure BackfillState where
  updates : List (Nat × List Rat)
  processedCount : Nat
  errorCount : Nat
  deriving Repr, DecidableEq

/-- Initial loop state: no updates, both counters zero. -/
def initState : BackfillState := ⟨[], 0, 0⟩

/-- One document's processing inside the batch Promise.all (lines 82-110):
when the embedding call resolves to an array of length exactly 1536, an
update entry is pushed and processedCount incremented; every other outcome
(rejected call, non-array value, wrong length) throws into the per-document
catch, which increments errorCount. -/
def processDoc (emb : Doc → EmbResp) (s : BackfillState) (d : Doc) : BackfillState :=
  match emb d with
  | .value (.arr v) =>
    if v.length = 1536 then
      { updates := s.updates ++ [(d.id, v)],
        processedCount := s.processedCount + 1,
        errorCount := s.errorCount }
    else
      { s with errorCount := s.errorCount + 1 }
  | _ => { s with errorCount := s.errorCount + 1 }

/-- Whether a document's embedding attempt succeeds: the call resolves to an
array of length exactly 1536 (the check on line 93). -/
def docSucceeds (emb : Doc → EmbResp) (d : Doc) : Bool :=
  match emb d with
  | .value (.arr v) => v.length == 1536
  | _ => false

/-- Batch size of the createEmbedding loop (line 79). -/
def batchSize : Nat := 50

/-- The slicing of the for-loop on lines 80-81: documents.slice(i, i+n) for
i = 0, n, 2n, ... (empty once the list is exhausted; n = 0 would never
advance, modelled as producing no batches). -/
def sliceBatches (n : Nat) (l : List Doc) : List (List Doc) :=
  if _h : n = 0 ∨ l = [] then []
  else l.take n :: sliceBatches n (l.drop n)
termination_by l.length
decreasing_by
  simp only [List.length_drop]
  rcases not_or.mp _h with ⟨hn, hl⟩
  have hpos : 0 < l.length := List.length_pos.mpr hl
  omega

/-- The whole counting loop of createEmbedding (lines 74-113): process the
documents batch by batch, threading the shared updates array and counters.
Within one batch the Promise.all may resolve the per-document continuations
in any order, but each document contributes exactly one push-and-increment
or one error increment, so the fold below captures every interleaving's
counters and update multiset; batches themselves run strictly in sequence. -/
def runBackfill (emb : Doc → EmbResp) (docs : List Doc) : BackfillState :=
  (sliceBatches batchSize docs).foldl (fun s batch => batch.foldl (processDoc emb) s) initState

/-- The eligibility filter of createEmbedding (lines 59-64): the Mongo query
on the name field with $exists true (field present) and $ne "" (value not
the empty string). When the route finds zero matching documents it returns
early with a no-work message (lines 67-72); otherwise the loop above runs
and the bulk write submits the accumulated updates (lines 115-119). -/
def matchesNameFilter (d : Doc) : Bool :=
  d.name.isSome && d.name != some ""

/-- Document selection of the backfill job: collection.find(filter) with the
name filter above (line 64). -/
def findEligible (docs : List Doc) : List Doc :=
  docs.filter matchesNameFilter

/-! ## SearchHandler: the search route (src/routes/index.js lines 256-422) -/

/-- A ranked match returned by the $vectorSearch aggregation, after the
$project stage: identifier, name and relevance score (ingredients and steps
are carried the same way and add nothing to the claims). -/
structure SearchResult where
  id : Nat
  name : String
  score : Rat
  deriving Repr, DecidableEq

/-- The argument object of the $vectorSearch stage built on lines 357-363. -/
structure VSearchParams where
  queryVector : List Rat
  path : String
  numCandidates : Nat
  index : String
  limit : Rat
  deriving Repr, DecidableEq

/-- Upstream calls a search-route run performs, in the order the code makes
them: embedCalls counts OpenAI embedding requests, storeQueries counts
collection reads (listIndexes, findOne, the regex find, the aggregate), and
vsCalls records each $vectorSearch invocation with its parameters. -/
structure Trace where
  embedCalls : Nat
  storeQueries : Nat
  vsCalls : List VSearchParams
  deriving Repr, DecidableEq

/-- The JSON envelope a search-route run sends, together with its HTTP
status: the success flag, the error and message strings, and (on the 200
responses) the results array and its count. -/
structure SearchResp where
  status : Nat
  success : Bool
  error : Option String
  message : String
  results : Option (List SearchResult)
  count : Option Nat
  deriving Repr, DecidableEq

/-- The request body fields the search route destructures (lines 277-280).
query is none when the field is absent, null, or not a string (all rejected
by the typeof test on line 283); limit is none when absent, in which case
the destructuring default 10 applies, and otherwise the JSON number sent. -/
structure SearchReq where
  query : Option String
  limit : Option Rat
  deriving Repr, DecidableEq

/-- External state a search-route run reads: the names of the collection's
indexes, the outcome of the query-embedding call (none = the call rejects),
and the matches the $vectorSearch aggregation returns. -/
structure SearchEnv where
  indexNames : List String
  embedResult : Option (List Rat)
  vsResults : List SearchResult
  deriving Repr, DecidableEq

/-- Whitespace trimming as performed by the source's query.trim() calls
(JavaScript String.prototype.trim): remove leading and trailing whitespace
characters. -/
def jsTrim (s : String) : String :=
  String.mk ((s.data.dropWhile Char.isWhitespace).reverse.dropWhile Char.isWhitespace).reverse

/-- The 400 response of lines 284-289. -/
def invalidQueryResp : SearchResp :=
  { status := 400, success := false, error := some "Invalid query",
    message := "Query must be a non-empty string", results := none, count := none }

/-- The 400 response of lines 292-297. -/
def invalidLimitResp : SearchResp :=
  { status := 400, success := false, error := some "Invalid limit value",
    message := "Limit must be between 1 and 50", results := none, count := none }

/-- The search route (lines 256-422). Control flow in source order: validate
the query (line 283), validate the limit (line 291), listIndexes and test for
vector_index (lines 300-309), the findOne debug lookup (line 312), the
query-embedding call (lines 325-338), the regex text search (line 341), the
$vectorSearch aggregation (lines 355-374), then either the empty-results 200
(lines 381-402) or the success 200 (lines 404-411). -/
def searchHandler (req : SearchReq) (env : SearchEnv) : SearchResp × Trace :=
  let lim := req.limit.getD 10
  match req.query with
  | none => (invalidQueryResp, { embedCalls := 0, storeQueries := 0, vsCalls := [] })
  | some q =>
    if (jsTrim q).length = 0 then
      (invalidQueryResp, { embedCalls := 0, storeQueries := 0, vsCalls := [] })
    else if lim < 1 ∨ lim > 50 then
      (invalidLimitResp, { embedCalls := 0, storeQueries := 0, vsCalls := [] })
    else if "vector_index" ∉ env.indexNames then
      ({ status := 404, success := false, error := some "Search index not found",
         message := "Please create the search index first using /createSearchIndex",
         results := none, count := none },
       { embedCalls := 0, storeQueries := 1, vsCalls := [] })
    else
      match env.embedResult with
      | none =>
        ({ status := 500, success := false, error := some "Failed to generate embedding",
           message := "Error processing search query", results := none, count := none },
         { embedCalls := 1, storeQueries := 2, vsCalls := [] })
      | some emb =>
        let params : VSearchParams :=
          { queryVector := emb, path := "plot_embedding", numCandidates := 100,
            index := "vector_index", limit := lim }
        let tr : Trace := { embedCalls := 1, storeQueries := 4, vsCalls := [params] }
        if env.vsResults.length = 0 then
          ({ status := 200, success := true, error := none, message := "No results found",
             results := some [], count := some 0 }, tr)
        else
          ({ status := 200, success := true, error := none,
             message := "Search completed successfully",
             results := some env.vsResults, count := some env.vsResults.length }, tr)

/-! ## Index creation: createSearchIndex (src/routes/index.js lines 148-206) -/

/-- External index state: the names of the collection's indexes. -/
structure IndexState where
  indexNames : List String
  deriving Repr, DecidableEq

/-- The JSON envelope of a createSearchIndex run. -/
structure IndexResp where
  status : Nat
  success : Bool
  message : String
  indexName : Option String
  deriving Repr, DecidableEq

/-- The createSearchIndex route (lines 148-206): dropIndex("vector_index")
with any failure ignored (lines 161-167), createIndex named vector_index
(lines 170-178), then listIndexes and, finding the index, the 200 success
response (lines 183-195); were the created index absent from the listing,
the route would throw into its catch and send a 500. The route sends the
same response whether or not an index with that name existed before the
call. -/
def createSearchIndexHandler (s : IndexState) : IndexState × IndexResp :=
  let s1 : IndexState := { indexNames := s.indexNames.filter (fun n => n ≠ "vector_index") }
  let s2 : IndexState := { indexNames := s1.indexNames ++ ["vector_index"] }
  if "vector_index" ∈ s2.indexNames then
    (s2, { status := 200, success := true,
           message := "Search index created successfully",
           indexName := some "vector_index" })
  else
    (s2, { status := 500, success := false,
           message := "Index was not created successfully", indexName := none })

/-! ## ChatRelay: the reply route (src/unnamed/part_000 lines 388-427) -/

/-- An element of the conversationArr request field: either a role/content
message object or any other JSON value (the route never inspects elements,
so one opaque constructor suffices for the rest). -/
inductive ChatMsg where
  | pair (role : String) (content : String)
  | other (tag : Nat)
  deriving Repr, DecidableEq

/-- The request object built for openai.chat.completions.create on lines
407-412: model, the forwarded messages, temperature 0.7 and max_tokens
1000. -/
structure ChatReq where
  model : String
  messages : List ChatMsg
  temperature : Rat
  max_tokens : Nat
  deriving Repr, DecidableEq

/-- Outcome of the chat-completion call: the promise rejects, or resolves
with the message contents of its choices in order. -/
inductive ChatOutcome where
  | fail
  | ok (choices : List String)
  deriving Repr, DecidableEq

/-- The JSON envelope of a reply-route run (message carries the first
completion's text on success, and the thrown error's text on a 500, the
latter modelled as none). -/
structure ChatResp where
  status : Nat
  success : Bool
  error : Option String
  message : Option String
  deriving Repr, DecidableEq

/-- The 400 response of lines 400-405. -/
def invalidConversationResp : ChatResp :=
  { status := 400, success := false, error := some "Invalid conversation array",
    message := some "conversationArr must be a non-empty array of messages" }

/-- The reply route (lines 388-427): conversationArr is none when the field
is absent or not an array, which the Array.isArray test rejects; an empty
array is also rejected (lines 399-405). Otherwise the array is forwarded
verbatim with the fixed sampling parameters, and the first choice's content
is returned (lines 407-417); a rejected call, or an empty choices list
(making choices[0].message throw), lands in the catch and sends a 500. The
second component records the upstream requests made. -/
def replyHandler (svc : ChatReq → ChatOutcome) (conversationArr : Option (List ChatMsg)) :
    ChatResp × List ChatReq :=
  match conversationArr with
  | none => (invalidConversationResp, [])
  | some msgs =>
    if msgs.length = 0 then
      (invalidConversationResp, [])
    else
      let req : ChatReq := { model := "gpt-3.5-turbo", messages := msgs,
                             temperature := 7/10, max_tokens := 1000 }
      match svc req with
      | .fail =>
        ({ status := 500, success := false, error := some "Failed to process reply",
           message := none }, [req])
      | .ok [] =>
        ({ status := 500, success := false, error := some "Failed to process reply",
           message := none }, [req])
      | .ok (c :: _) =>
        ({ status := 200, success := true, error := none, message := some c }, [req])

/-! ## Helper lemmas -/

/-- Unfolding of sliceBatches on a nonempty list with a positive batch size. -/
theorem sliceBatches_eq (n : Nat) (hn : n ≠ 0) (l : List Doc) (hl : l ≠ []) :
    sliceBatches n l = l.take n :: sliceBatches n (l.drop n) := by
  rw [sliceBatches.eq_def]
  rw [dif_neg (not_or.mpr ⟨hn, hl⟩)]

/-- Unfolding of sliceBatches on the empty list. -/
theorem sliceBatches_nil (n : Nat) : sliceBatches n [] = [] := by
  rw [sliceBatches.eq_def]
  rw [dif_pos (Or.inr rfl)]

/-- Folding batch by batch over the slices equals folding over the whole
list, for a positive batch size. -/
theorem foldl_sliceBatches (f : BackfillState → Doc → BackfillState) (n : Nat) (hn : n ≠ 0) :
    ∀ (k : Nat) (l : List Doc), l.length ≤ k → ∀ s : BackfillState,
      (sliceBatches n l).foldl (fun acc batch => batch.foldl f acc) s = l.foldl f s := by
  intro k
  induction k with
  | zero =>
    intro l hl s
    have hnil : l = [] := List.eq_nil_of_length_eq_zero (Nat.le_zero.mp hl)
    subst hnil
    rw [sliceBatches_nil]
    rfl
  | succ k ih =>
    intro l hl s
    rcases eq_or_ne l [] with hnil | hne
    · subst hnil; rw [sliceBatches_nil]; rfl
    · rw [sliceBatches_eq n hn l hne, List.foldl_cons]
      rw [ih (l.drop n) ?_ ((l.take n).foldl f s)]
      · rw [← List.foldl_append, List.take_append_drop]
      · simp only [List.length_drop]
        have hpos : 0 < l.length := List.length_pos.mpr hne
        omega

/-- In one fold of processDoc over a document list, every successful document
adds one update entry and one processedCount tick, every failing one adds one
errorCount tick. -/
theorem foldl_processDoc (emb : Doc → EmbResp) :
    ∀ (docs : List Doc) (s : BackfillState),
      ((docs.foldl (processDoc emb) s).processedCount
          = s.processedCount + (docs.filter (docSucceeds emb)).length) ∧
      ((docs.foldl (processDoc emb) s).errorCount
          = s.errorCount + (docs.filter (fun d => !(docSucceeds emb d))).length) ∧
      ((docs.foldl (processDoc emb) s).updates.length
          = s.updates.length + (docs.filter (docSucceeds emb)).length) := by
  intro docs
  induction docs with
  | nil => intro s; simp
  | cons d ds ih =>
    intro s
    have key : ∀ t : BackfillState,
        (processDoc emb t d).processedCount
            = t.processedCount + (if docSucceeds emb d then 1 else 0) ∧
        (processDoc emb t d).errorCount
            = t.errorCount + (if docSucceeds emb d then 0 else 1) ∧
        (processDoc emb t d).updates.length
            = t.updates.length + (if docSucceeds emb d then 1 else 0) := by
      intro t
      rcases hd : emb d with _ | v
      · have hs : docSucceeds emb d = false := by simp [docSucceeds, hd]
        simp [processDoc, hd, hs]
      · cases v with
        | nonArray =>
          have hs : docSucceeds emb d = false := by simp [docSucceeds, hd]
          simp [processDoc, hd, hs]
        | arr w =>
          by_cases hw : w.length = 1536
          · have hs : docSucceeds emb d = true := by simp [docSucceeds, hd, hw]
            simp [processDoc, hd, hw, hs]
          · have hs : docSucceeds emb d = false := by simp [docSucceeds, hd, hw]
            simp [processDoc, hd, hw, hs]
    rcases ih (processDoc emb s d) with ⟨h1, h2, h3⟩
    rcases key s with ⟨k1, k2, k3⟩
    refine ⟨?_, ?_, ?_⟩ <;>
      simp only [List.foldl_cons, List.filter_cons, h1, h2, h3, k1, k2, k3] <;>
      by_cases hs : docSucceeds emb d <;> simp [hs] <;> omega

/-- A filter and its complement partition a list's length. -/
theorem length_filter_add_length_filter_not {α : Type} (p : α → Bool) (l : List α) :
    (l.filter p).length + (l.filter (fun a => !(p a))).length = l.length := by
  induction l with
  | nil => rfl
  | cons a l ih =>
    by_cases h : p a <;> simp [List.filter_cons, h] <;> omega

/-- The backfill counting loop reduced to a single fold over the documents. -/
theorem runBackfill_eq_foldl (emb : Doc → EmbResp) (docs : List Doc) :
    runBackfill emb docs = docs.foldl (processDoc emb) initState := by
  unfold runBackfill
  exact foldl_sliceBatches (processDoc emb) batchSize (by decide)
    docs.length docs (le_refl _) initState

/-! ## Claim theorems -/

/-- C1: for every run of the backfill job over N eligible documents in which
K per-document embedding attempts fail (the call rejects, or the resolved
value is not an array of length exactly 1536) and N−K succeed, the reported
processedCount equals N−K, the reported errorCount equals K, and exactly N−K
(id, vector) update entries are accumulated for the bulk persist step. -/
theorem backfill_counts (emb : Doc → EmbResp) (allDocs : List Doc) (N K : Nat)
    (hN : (findEligible allDocs).length = N)
    (hK : ((findEligible allDocs).filter (fun d => !(docSucceeds emb d))).length = K) :
    (runBackfill emb (findEligible allDocs)).processedCount = N - K ∧
    (runBackfill emb (findEligible allDocs)).errorCount = K ∧
    (runBackfill emb (findEligible allDocs)).updates.length = N - K := by
  rw [runBackfill_eq_foldl]
  rcases foldl_processDoc emb (findEligible allDocs) initState with ⟨h1, h2, h3⟩
  have hpart := length_filter_add_length_filter_not (docSucceeds emb) (findEligible allDocs)
  rw [hN, hK] at hpart
  refine ⟨?_, ?_, ?_⟩
  · rw [h1]; simp [initState]; omega
  · rw [h2]; simp [initState]; omega
  · rw [h3]; simp [initState]; omega

/-- Embedding oracle of the C1 witness run: the call for document 2 rejects,
every other call resolves to a 1536-element array. -/
def embW : Doc → EmbResp :=
  fun d => if d.id = 2 then .fail else .value (.arr (List.replicate 1536 0))

/-- Document set of the C1 witness run: three eligible documents and one
with an absent name. -/
def allDocsW : List Doc :=
  [⟨1, some "Soup"⟩, ⟨2, some "Bread"⟩, ⟨3, some "Rice"⟩, ⟨4, none⟩]

/-- Witness for C1: three eligible documents, one failing attempt; the run
reports processedCount 2, errorCount 1, and accumulates 2 update entries. -/
theorem backfill_counts_witness :
    (runBackfill embW (findEligible allDocsW)).processedCount = 2 ∧
    (runBackfill embW (findEligible allDocsW)).errorCount = 1 ∧
    (runBackfill embW (findEligible allDocsW)).updates.length = 2 := by
  have hsucc : ∀ d : Doc, docSucceeds embW d = !(decide (d.id = 2)) := by
    intro d
    by_cases h : d.id = 2
    · have he : embW d = .fail := by rw [embW, if_pos h]
      rw [docSucceeds, he, h]
      rfl
    · have he : embW d = .value (.arr (List.replicate 1536 0)) := by rw [embW, if_neg h]
      rw [docSucceeds, he]
      simp only [List.length_replicate, beq_self_eq_true, h]
      rfl
  have hK : ((findEligible allDocsW).filter (fun d => !(docSucceeds embW d))).length = 1 := by
    have he : findEligible allDocsW
        = [⟨1, some "Soup"⟩, ⟨2, some "Bread"⟩, ⟨3, some "Rice"⟩] := by decide
    rw [he]
    simp [List.filter_cons, hsucc]
  have h := backfill_counts embW allDocsW 3 1 (by decide) hK
  simpa using h

/-- C9: the backfill job's document-selection step returns exactly the
documents whose name field exists and is non-empty; on the concrete set
with ids 1 (name "Soup"), 2 (name ""), 3 (name "Bread") it returns only
ids 1 and 3. -/
theorem findEligible_spec (docs : List Doc) (d : Doc) :
    (d ∈ findEligible docs ↔ d ∈ docs ∧ ∃ s, d.name = some s ∧ s ≠ "") ∧
    (findEligible [⟨1, some "Soup"⟩, ⟨2, some ""⟩, ⟨3, some "Bread"⟩]).map Doc.id
      = [1, 3] := by
  constructor
  · rw [findEligible, List.mem_filter]
    unfold matchesNameFilter
    rcases d with ⟨i, name⟩
    cases name with
    | none => simp
    | some s => simp [bne_iff_ne]
  · decide

/-- Every $vectorSearch invocation a search-route run makes carries
numCandidates 100 and the validated effective limit (the requested limit, or
10 when absent), which lies in [1, 50]. -/
theorem vsCalls_shape (req : SearchReq) (env : SearchEnv) (p : VSearchParams)
    (hp : p ∈ (searchHandler req env).2.vsCalls) :
    p.numCandidates = 100 ∧ p.limit = req.limit.getD 10 ∧
    1 ≤ p.limit ∧ p.limit ≤ 50 ∧ p.index = "vector_index" ∧ p.path = "plot_embedding" := by
  rcases hql : req.query with _ | q
  · simp [searchHandler, hql] at hp
  · by_cases ht : (jsTrim q).length = 0
    · simp [searchHandler, hql, ht] at hp
    · by_cases hl : req.limit.getD 10 < 1 ∨ req.limit.getD 10 > 50
      · simp [searchHandler, hql, ht, hl] at hp
      · by_cases hi : "vector_index" ∈ env.indexNames
        · rcases hee : env.embedResult with _ | emb
          · simp [searchHandler, hql, ht, hl, hi, hee] at hp
          · simp [searchHandler, hql, ht, hl, hi, hee, apply_ite Prod.snd] at hp
            push_neg at hl
            subst hp
            exact ⟨rfl, rfl, hl.1, hl.2, rfl, rfl⟩
        · simp [searchHandler, hql, ht, hl, hi] at hp

/-- After passing both validation tests, a search-route run never sends a
400 response. -/
theorem search_post_validation_not_400 (req : SearchReq) (env : SearchEnv) (q : String)
    (hq : req.query = some q) (ht : (jsTrim q).length ≠ 0)
    (hl : ¬(req.limit.getD 10 < 1 ∨ req.limit.getD 10 > 50)) :
    (searchHandler req env).1.status ≠ 400 := by
  by_cases hi : "vector_index" ∈ env.indexNames
  · rcases hee : env.embedResult with _ | emb
    · simp [searchHandler, hq, ht, hl, hi, hee]
    · by_cases hv : env.vsResults.length = 0
      · simp [searchHandler, hq, ht, hl, hi, hee, hv]
      · simp [searchHandler, hq, ht, hl, hi, hee, hv]
  · simp [searchHandler, hq, ht, hl, hi]

/-- Request of the C2 run: a valid query with the maximum limit 50. -/
def reqC2 : SearchReq := { query := some "soup", limit := some 50 }

/-- Environment of the C2 run: the index exists and the embedding call
resolves. -/
def envC2 : SearchEnv :=
  { indexNames := ["vector_index"], embedResult := some [1], vsResults := [] }

/-- Counterexample for C2: with the valid limit 50, the run reaches the
vector search passing numCandidates 100, and 100 is smaller than the
max(10 x 50, 100) = 500 the claim requires. -/
theorem candidate_pool_not_scaled :
    ((searchHandler reqC2 envC2).2.vsCalls.map VSearchParams.numCandidates = [100]) ∧
    (100 : Nat) < 500 := by
  have ht : ¬((jsTrim "soup").length = 0) := by decide
  have hl : ¬((50 : Rat) < 1 ∨ (50 : Rat) > 50) := by norm_num
  constructor
  · simp [searchHandler, reqC2, envC2, ht, hl]
  · norm_num

/-- C2 amended: the candidate pool size passed to the vector search is the
constant 100 for every request that reaches it, independent of the limit;
it exceeds the effective limit (which validation bounds by 50) but does not
scale as max(10 x limit, 100). -/
theorem numCandidates_fixed (req : SearchReq) (env : SearchEnv) (p : VSearchParams)
    (hp : p ∈ (searchHandler req env).2.vsCalls) :
    p.numCandidates = 100 ∧ p.limit < ((p.numCandidates : Nat) : Rat) ∧
    p.limit = req.limit.getD 10 := by
  rcases vsCalls_shape req env p hp with ⟨h1, h2, _, h4, _, _⟩
  refine ⟨h1, ?_, h2⟩
  rw [h1]
  calc p.limit ≤ 50 := h4
    _ < ((100 : Nat) : Rat) := by norm_num

/-- Witness for C2's amended theorem: the concrete C2 run's single vector
search call has numCandidates 100 and limit 50 below it. -/
theorem numCandidates_fixed_witness :
    ({ queryVector := [1], path := "plot_embedding", numCandidates := 100,
       index := "vector_index", limit := 50 } : VSearchParams).numCandidates = 100 ∧
    ({ queryVector := [1], path := "plot_embedding", numCandidates := 100,
       index := "vector_index", limit := 50 } : VSearchParams).limit
      < ((({ queryVector := [1], path := "plot_embedding", numCandidates := 100,
             index := "vector_index", limit := 50 } : VSearchParams).numCandidates : Nat) : Rat) ∧
    ({ queryVector := [1], path := "plot_embedding", numCandidates := 100,
       index := "vector_index", limit := 50 } : VSearchParams).limit = reqC2.limit.getD 10 :=
  numCandidates_fixed reqC2 envC2 _ (by
    have ht : ¬((jsTrim "soup").length = 0) := by decide
    have hl : ¬((50 : Rat) < 1 ∨ (50 : Rat) > 50) := by norm_num
    simp [searchHandler, reqC2, envC2, ht, hl])

/-- Counterexample for C3: the limit 3/2 is not an integer (its reduced
denominator is 2), yet the run is not rejected — it answers 200 and makes
an embedding call — because the code only range-checks the limit. -/
theorem search_nonint_limit_accepted :
    (¬ ∃ z : ℤ, ((3 : Rat) / 2) = (z : Rat)) ∧
    (searchHandler { query := some "soup", limit := some (3 / 2) }
      { indexNames := ["vector_index"], embedResult := some [1],
        vsResults := [] }).1.status = 200 ∧
    (searchHandler { query := some "soup", limit := some (3 / 2) }
      { indexNames := ["vector_index"], embedResult := some [1],
        vsResults := [] }).2.embedCalls = 1 := by
  have ht : ¬((jsTrim "soup").length = 0) := by decide
  have hl : ¬((3 : Rat) / 2 < 1 ∨ (3 : Rat) / 2 > 50) := by norm_num
  refine ⟨?_, ?_, ?_⟩
  · rintro ⟨z, hz⟩
    have h1 : ((3 : Rat) / 2).den = 1 := by rw [hz]; exact Rat.den_intCast z
    norm_num at h1
  · simp [searchHandler, ht, hl]
  · simp [searchHandler, ht, hl]

/-- C3 amended: every search request whose query is not a non-empty string
after trimming, or whose effective limit (default 10) is below 1 or above
50 — in particular limit 0 and limit 51 — receives the 400 rejection and
triggers zero upstream calls (no embedding call, no store query, no vector
search); integrality of the limit is not checked. -/
theorem search_validation (req : SearchReq) (env : SearchEnv)
    (h : (∀ q, req.query = some q → (jsTrim q).length = 0) ∨
         (req.limit.getD 10 < 1 ∨ req.limit.getD 10 > 50)) :
    (searchHandler req env).1.status = 400 ∧
    (searchHandler req env).1.success = false ∧
    (searchHandler req env).2.embedCalls = 0 ∧
    (searchHandler req env).2.storeQueries = 0 ∧
    (searchHandler req env).2.vsCalls = [] := by
  rcases hql : req.query with _ | q
  · simp [searchHandler, hql, invalidQueryResp]
  · by_cases ht : (jsTrim q).length = 0
    · simp [searchHandler, hql, ht, invalidQueryResp]
    · rcases h with hq' | hl
      · exact absurd (hq' q hql) ht
      · simp [searchHandler, hql, ht, hl, invalidLimitResp]

/-- Witness for C3's amended theorem: limit 0 with a well-formed query is
rejected with status 400 and no upstream call. -/
theorem search_validation_witness :
    (searchHandler { query := some "soup", limit := some 0 }
      { indexNames := [], embedResult := none, vsResults := [] }).1.status = 400 ∧
    (searchHandler { query := some "soup", limit := some 0 }
      { indexNames := [], embedResult := none, vsResults := [] }).1.success = false ∧
    (searchHandler { query := some "soup", limit := some 0 }
      { indexNames := [], embedResult := none, vsResults := [] }).2.embedCalls = 0 ∧
    (searchHandler { query := some "soup", limit := some 0 }
      { indexNames := [], embedResult := none, vsResults := [] }).2.storeQueries = 0 ∧
    (searchHandler { query := some "soup", limit := some 0 }
      { indexNames := [], embedResult := none, vsResults := [] }).2.vsCalls = [] :=
  search_validation _ _ (Or.inr (by norm_num))

/-- C4: for every valid search request (non-empty trimmed query, limit in
range), when no index named vector_index exists the run answers 404 with
the message advising the caller to create the index first, and makes no
embedding call. -/
theorem search_index_absent (req : SearchReq) (env : SearchEnv) (q : String)
    (hq : req.query = some q) (ht : (jsTrim q).length ≠ 0)
    (hl : ¬(req.limit.getD 10 < 1 ∨ req.limit.getD 10 > 50))
    (hidx : "vector_index" ∉ env.indexNames) :
    (searchHandler req env).1.status = 404 ∧
    (searchHandler req env).1.success = false ∧
    (searchHandler req env).1.error = some "Search index not found" ∧
    (searchHandler req env).1.message
      = "Please create the search index first using /createSearchIndex" ∧
    (searchHandler req env).2.embedCalls = 0 := by
  simp [searchHandler, hq, ht, hl, hidx]

/-- Witness for C4: a valid request against a store with no indexes. -/
theorem search_index_absent_witness :
    (searchHandler { query := some "pasta", limit := none }
      { indexNames := [], embedResult := some [1], vsResults := [] }).1.status = 404 ∧
    (searchHandler { query := some "pasta", limit := none }
      { indexNames := [], embedResult := some [1], vsResults := [] }).1.success = false ∧
    (searchHandler { query := some "pasta", limit := none }
      { indexNames := [], embedResult := some [1], vsResults := [] }).1.error
      = some "Search index not found" ∧
    (searchHandler { query := some "pasta", limit := none }
      { indexNames := [], embedResult := some [1], vsResults := [] }).1.message
      = "Please create the search index first using /createSearchIndex" ∧
    (searchHandler { query := some "pasta", limit := none }
      { indexNames := [], embedResult := some [1], vsResults := [] }).2.embedCalls = 0 :=
  search_index_absent _ _ "pasta" rfl (by decide) (by norm_num) (by decide)

/-- C6: for every valid search request whose vector search returns zero
matches, the run answers 200 with success true, an explicit empty results
array and count 0, distinct from an error response (no error field). -/
theorem search_empty_results (req : SearchReq) (env : SearchEnv) (q : String)
    (emb : List Rat)
    (hq : req.query = some q) (ht : (jsTrim q).length ≠ 0)
    (hl : ¬(req.limit.getD 10 < 1 ∨ req.limit.getD 10 > 50))
    (hidx : "vector_index" ∈ env.indexNames)
    (he : env.embedResult = some emb)
    (hv : env.vsResults = []) :
    (searchHandler req env).1.status = 200 ∧
    (searchHandler req env).1.success = true ∧
    (searchHandler req env).1.results = some [] ∧
    (searchHandler req env).1.count = some 0 ∧
    (searchHandler req env).1.error = none := by
  simp [searchHandler, hq, ht, hl, hidx, he, hv]

/-- Witness for C6: a valid request, index present, embedding resolved, and
an empty vector-search result. -/
theorem search_empty_results_witness :
    (searchHandler { query := some "soup", limit := some 5 }
      { indexNames := ["vector_index"], embedResult := some [1],
        vsResults := [] }).1.status = 200 ∧
    (searchHandler { query := some "soup", limit := some 5 }
      { indexNames := ["vector_index"], embedResult := some [1],
        vsResults := [] }).1.success = true ∧
    (searchHandler { query := some "soup", limit := some 5 }
      { indexNames := ["vector_index"], embedResult := some [1],
        vsResults := [] }).1.results = some [] ∧
    (searchHandler { query := some "soup", limit := some 5 }
      { indexNames := ["vector_index"], embedResult := some [1],
        vsResults := [] }).1.count = some 0 ∧
    (searchHandler { query := some "soup", limit := some 5 }
      { indexNames := ["vector_index"], embedResult := some [1],
        vsResults := [] }).1.error = none :=
  search_empty_results _ _ "soup" [1] rfl (by decide) (by norm_num) (by decide) rfl rfl

/-- C10: a search request that omits the limit field is not rejected with a
400 — the destructuring default 10 applies — and any vector search it issues
carries limit 10 (not an unbounded limit). -/
theorem search_default_limit (req : SearchReq) (env : SearchEnv) (q : String)
    (hq : req.query = some q) (ht : (jsTrim q).length ≠ 0)
    (hl : req.limit = none) :
    (searchHandler req env).1.status ≠ 400 ∧
    (∀ p ∈ (searchHandler req env).2.vsCalls, p.limit = 10) := by
  have hlim : ¬(req.limit.getD 10 < 1 ∨ req.limit.getD 10 > 50) := by
    rw [hl]; norm_num
  refine ⟨search_post_validation_not_400 req env q hq ht hlim, ?_⟩
  intro p hp
  rcases vsCalls_shape req env p hp with ⟨_, h2, _⟩
  rw [h2, hl]
  rfl

/-- Witness for C10: omitting limit on a run that reaches the vector search,
the response is a 200 (not a 400 rejection) and the issued vector search
uses limit 10. -/
theorem search_default_limit_witness :
    (searchHandler { query := some "soup", limit := none }
      { indexNames := ["vector_index"], embedResult := some [1],
        vsResults := [] }).1.status ≠ 400 ∧
    (∀ p ∈ (searchHandler { query := some "soup", limit := none }
      { indexNames := ["vector_index"], embedResult := some [1],
        vsResults := [] }).2.vsCalls, p.limit = 10) :=
  search_default_limit _ _ "soup" rfl (by decide) rfl

/-- Counterexample for C5: starting from a store with no indexes, the second
createSearchIndex call returns a response identical to the first call's —
both carry the message of the created case — so the second call's result
does not report "already existed" and carries no status distinguishing it
from "created". -/
theorem createIndex_no_already_existed_status :
    (createSearchIndexHandler (createSearchIndexHandler ⟨[]⟩).1).2 =
      (createSearchIndexHandler ⟨[]⟩).2 ∧
    (createSearchIndexHandler (createSearchIndexHandler ⟨[]⟩).1).2.message =
      "Search index created successfully" ∧
    (createSearchIndexHandler ⟨[]⟩).2.message =
      "Search index created successfully" := by
  refine ⟨rfl, rfl, rfl⟩

/-- C5 amended: calling createSearchIndex twice in succession with its fixed
parameters succeeds both times, but the operation drops any existing
vector_index and recreates it, and the second call's response is identical
to the first's (the created-successfully status): no "already existed"
status exists. -/
theorem createIndex_twice_same_response (s : IndexState) :
    (createSearchIndexHandler s).2.success = true ∧
    (createSearchIndexHandler (createSearchIndexHandler s).1).2.success = true ∧
    (createSearchIndexHandler (createSearchIndexHandler s).1).2 =
      (createSearchIndexHandler s).2 := by
  have hmem : ∀ t : IndexState,
      "vector_index" ∈ (t.indexNames.filter (fun n => n ≠ "vector_index")) ++ ["vector_index"] := by
    intro t
    exact List.mem_append_right _ (List.mem_singleton.mpr rfl)
  have hresp : ∀ t : IndexState,
      (createSearchIndexHandler t).2 =
        { status := 200, success := true,
          message := "Search index created successfully",
          indexName := some "vector_index" } := by
    intro t
    unfold createSearchIndexHandler
    rw [if_pos (hmem t)]
  refine ⟨?_, ?_, ?_⟩
  · rw [hresp]
  · rw [hresp]
  · rw [hresp, hresp]

/-- Counterexample for C7: for the empty input text — empty after trimming —
getEmbedding still performs exactly one upstream call (with the empty input)
and returns the upstream value unchanged instead of failing with an
InvalidInput error before calling. -/
theorem getEmbedding_empty_input_calls_upstream :
    (jsTrim "").length = 0 ∧
    (getEmbedding (fun _ => EmbResp.value (.arr [0])) "").2 = [""] ∧
    (getEmbedding (fun _ => EmbResp.value (.arr [0])) "").1 = EmbResp.value (.arr [0]) := by
  refine ⟨rfl, rfl, rfl⟩

/-- C7 amended: getEmbedding performs no input validation — it makes exactly
one upstream call forwarding the given text verbatim, whatever the text —
and the 1536-length check lives in the backfill caller: when the returned
value is an array of length other than 1536, the document's outcome is an
error (errorCount incremented) and no update entry is produced, so the
vector is not persisted. -/
theorem getEmbedding_forwards_and_caller_checks_length (svc : String → EmbResp)
    (text : String) (emb : Doc → EmbResp) (s : BackfillState) (d : Doc) (v : List Rat)
    (hv : emb d = EmbResp.value (.arr v)) (hlen : v.length ≠ 1536) :
    (getEmbedding svc text).2 = [text] ∧
    (getEmbedding svc text).1 = svc text ∧
    (processDoc emb s d).errorCount = s.errorCount + 1 ∧
    (processDoc emb s d).updates = s.updates ∧
    (processDoc emb s d).processedCount = s.processedCount := by
  refine ⟨rfl, rfl, ?_, ?_, ?_⟩ <;> simp [processDoc, hv, hlen]

/-- Witness for C7's amended theorem: a 2-element returned vector on a
concrete document leaves the updates untouched and counts one error, while
getEmbedding forwards its text. -/
theorem getEmbedding_forwards_witness :
    (getEmbedding (fun _ => EmbResp.value (.arr [0])) "Recipe: Soup").2 = ["Recipe: Soup"] ∧
    (getEmbedding (fun _ => EmbResp.value (.arr [0])) "Recipe: Soup").1 =
      (fun _ => EmbResp.value (.arr [0])) "Recipe: Soup" ∧
    (processDoc (fun _ => EmbResp.value (.arr [0, 0])) initState ⟨1, some "Soup"⟩).errorCount
      = initState.errorCount + 1 ∧
    (processDoc (fun _ => EmbResp.value (.arr [0, 0])) initState ⟨1, some "Soup"⟩).updates
      = initState.updates ∧
    (processDoc (fun _ => EmbResp.value (.arr [0, 0])) initState ⟨1, some "Soup"⟩).processedCount
      = initState.processedCount :=
  getEmbedding_forwards_and_caller_checks_length _ "Recipe: Soup" _ initState
    ⟨1, some "Soup"⟩ [0, 0] rfl (by decide)

/-- Counterexample for C8: a non-empty conversation array whose single
element is not a role/content message pair passes the route's validation
(which only tests Array.isArray and non-emptiness) and is forwarded
upstream — one chat-completion call is made and a 200 is returned — instead
of failing with InvalidInput and making no upstream call. -/
theorem reply_forwards_nonpair_messages :
    (replyHandler (fun _ => ChatOutcome.ok ["hello"]) (some [ChatMsg.other 0])).2 =
      [{ model := "gpt-3.5-turbo", messages := [ChatMsg.other 0],
         temperature := 7/10, max_tokens := 1000 }] ∧
    (replyHandler (fun _ => ChatOutcome.ok ["hello"]) (some [ChatMsg.other 0])).1.status
      = 200 := by
  refine ⟨rfl, rfl⟩

/-- C8 amended: the reply route rejects with the 400 InvalidInput response,
making no upstream call, exactly when conversationArr is not an array or is
empty — the shape of its elements is not checked; any non-empty array is
forwarded verbatim in one chat-completion request with the fixed sampling
parameters temperature 0.7 and max_tokens 1000, and on success only the
first completion's text is returned. -/
theorem reply_relay (svc : ChatReq → ChatOutcome) (msgs : List ChatMsg) (c : String)
    (cs : List String) (hne : msgs ≠ [])
    (hok : svc { model := "gpt-3.5-turbo", messages := msgs, temperature := 7/10,
                 max_tokens := 1000 } = ChatOutcome.ok (c :: cs)) :
    (replyHandler svc none).1 = invalidConversationResp ∧
    (replyHandler svc none).2 = [] ∧
    (replyHandler svc (some [])).1 = invalidConversationResp ∧
    (replyHandler svc (some [])).2 = [] ∧
    (replyHandler svc (some msgs)).2 =
      [{ model := "gpt-3.5-turbo", messages := msgs, temperature := 7/10,
         max_tokens := 1000 }] ∧
    (replyHandler svc (some msgs)).1.success = true ∧
    (replyHandler svc (some msgs)).1.status = 200 ∧
    (replyHandler svc (some msgs)).1.message = some c := by
  have hlen : ¬(msgs.length = 0) := by
    simpa using hne
  refine ⟨rfl, rfl, rfl, rfl, ?_, ?_, ?_, ?_⟩ <;>
    simp [replyHandler, hlen, hok]

/-- Witness for C8's amended theorem: a two-message conversation is
forwarded in one request with temperature 0.7 and max_tokens 1000, and the
first completion's text comes back. -/
theorem reply_relay_witness :
    (replyHandler (fun _ => ChatOutcome.ok ["first", "second"]) none).1
      = invalidConversationResp ∧
    (replyHandler (fun _ => ChatOutcome.ok ["first", "second"]) none).2 = [] ∧
    (replyHandler (fun _ => ChatOutcome.ok ["first", "second"]) (some [])).1
      = invalidConversationResp ∧
    (replyHandler (fun _ => ChatOutcome.ok ["first", "second"]) (some [])).2 = [] ∧
    (replyHandler (fun _ => ChatOutcome.ok ["first", "second"])
      (some [ChatMsg.pair "user" "hi", ChatMsg.pair "assistant" "hello"])).2 =
      [{ model := "gpt-3.5-turbo",
         messages := [ChatMsg.pair "user" "hi", ChatMsg.pair "assistant" "hello"],
         temperature := 7/10, max_tokens := 1000 }] ∧
    (replyHandler (fun _ => ChatOutcome.ok ["first", "second"])
      (some [ChatMsg.pair "user" "hi", ChatMsg.pair "assistant" "hello"])).1.success = true ∧
    (replyHandler (fun _ => ChatOutcome.ok ["first", "second"])
      (some [ChatMsg.pair "user" "hi", ChatMsg.pair "assistant" "hello"])).1.status = 200 ∧
    (replyHandler (fun _ => ChatOutcome.ok ["first", "second"])
      (some [ChatMsg.pair "user" "hi", ChatMsg.pair "assistant" "hello"])).1.message
      = some "first" :=
  reply_relay _ [ChatMsg.pair "user" "hi", ChatMsg.pair "assistant" "hello"]
    "first" ["second"] (by decide) rfl

end VectorSearch
